import Mathlib

/-!
Verification of the keycloak-lib OIDC relying-party core.

This file gives a shallow embedding of the library's pure decision logic:

* `src/oidc/jwt.ts` — `isTokenExpired`, the PKCE code-verifier generator and
  its `base64UrlEncode` helper (randomness is modelled by passing the random
  byte list explicitly);
* `src/session/session.ts` — `getSession` and `buildSession` (the clock, the
  cookie store read, the JWT decoder and the refresh network call are passed
  as explicit parameters; store writes and network calls are recorded in an
  effect trace);
* `src/handlers/callback.ts` — `createCallbackHandler`'s request handling
  (the PKCE cookie read and the token exchange are parameters; the exchange
  call, the token write and the PKCE-cookie deletion are recorded in a trace);
* `src/oidc/discovery.ts` — `discoverEndpoints` with the process-wide cache
  passed and returned explicitly.

JavaScript truthiness (`""`, `0`, `null` are falsy) is modelled explicitly on
`Option String` / `Option Int`, and the nullish-coalescing operator `??` is
`Option.getD`.
-/

namespace KeycloakLib

/-- Truthiness of a JS `string | null | undefined` value: `null`, `undefined`
and the empty string are falsy. `none` stands for `null`/`undefined`. -/
def strTruthy : Option String → Bool
  | none => false
  | some s => s ≠ ""

/-- Truthiness of a JS `number | null | undefined` value: `null`, `undefined`
and `0` are falsy. (JS numbers that occur here are epoch timestamps, modelled
as integers.) -/
def numTruthy : Option Int → Bool
  | none => false
  | some n => n ≠ 0

/-! ## jwt.ts — expiry check (src/oidc/jwt.ts lines 89-95) -/

/-- Embedding of `isTokenExpired(expiresAt, marginSeconds)`. The TS function
reads the clock via `Math.floor(Date.now() / 1000)`; here `now` is an explicit
parameter. Returns `now >= expiresAt - marginSeconds`. -/
def isTokenExpired (now expiresAt marginSeconds : Int) : Bool :=
  decide (now ≥ expiresAt - marginSeconds)

/-! ## pkce.ts — code verifier generation (src/oidc/pkce.ts)

`generateCodeVerifier(length)` draws `length` random bytes and base64url
encodes them.  Randomness is modelled by passing the drawn bytes as a list;
the encoding itself (`btoa`, the `+`/`/` replacements, and the trailing `=`
strip) is embedded exactly. -/

/-- The standard base64 alphabet used by `btoa`. -/
def b64Alphabet : List Char :=
  "ABCDEFGHIJKLMNOPQRSTUVWXYZabcdefghijklmnopqrstuvwxyz0123456789+/".toList

/-- Character of the base64 alphabet at index `i` (indices produced by the
encoder are always < 64). -/
def b64Char (i : Nat) : Char := b64Alphabet.getD i '?'

/-- Embedding of `btoa` on a byte sequence: standard base64 with `=`
padding, processing three input bytes into four output characters. -/
def btoaEncode : List Nat → List Char
  | [] => []
  | [b1] => [b64Char (b1 / 4), b64Char (b1 % 4 * 16), '=', '=']
  | [b1, b2] => [b64Char (b1 / 4), b64Char (b1 % 4 * 16 + b2 / 16),
                 b64Char (b2 % 16 * 4), '=']
  | b1 :: b2 :: b3 :: rest =>
      b64Char (b1 / 4) :: b64Char (b1 % 4 * 16 + b2 / 16) ::
      b64Char (b2 % 16 * 4 + b3 / 64) :: b64Char (b3 % 64) :: btoaEncode rest

/-- The `.replace(/\+/g, '-').replace(/\//g, '_')` step, per character. -/
def urlSafeChar (c : Char) : Char :=
  if c = '+' then '-' else if c = '/' then '_' else c

/-- The `.replace(/=+$/, '')` step: remove every trailing `=`. -/
def stripTrailingPad (l : List Char) : List Char :=
  (l.reverse.dropWhile (fun c => c == '=')).reverse

/-- Embedding of `base64UrlEncode` (src/oidc/pkce.ts lines 250-259):
`btoa` of the bytes, then URL-safe replacements, then strip padding. -/
def base64UrlEncode (bytes : List Nat) : List Char :=
  stripTrailingPad ((btoaEncode bytes).map urlSafeChar)

/-- Embedding of `generateCodeVerifier(length)` (src/oidc/pkce.ts lines
209-213): the TS function fills a `Uint8Array(length)` with random bytes and
returns `base64UrlEncode` of it; `randomBytes` stands for that array, so a
call with argument `length` corresponds to any `randomBytes` of that length. -/
def generateCodeVerifier (randomBytes : List Nat) : List Char :=
  base64UrlEncode randomBytes

/-- Length of the base64url (unpadded) encoding of `n` bytes. -/
def b64UrlLen (n : Nat) : Nat :=
  4 * (n / 3) + (if n % 3 = 0 then 0 else n % 3 + 1)

lemma urlSafeChar_b64Char_ne_pad (i : Nat) : urlSafeChar (b64Char i) ≠ '=' := by
  by_cases h : i < 64
  · revert h
    exact (by decide : ∀ j, j < 64 → urlSafeChar (b64Char j) ≠ '=') i
  · have hlen : b64Alphabet.length ≤ i := by
      have : b64Alphabet.length = 64 := by decide
      omega
    unfold b64Char
    rw [List.getD_eq_default _ _ hlen]
    decide

lemma stripTrailingPad_nil : stripTrailingPad [] = [] := rfl

lemma dropWhile_eq_of_forall_ne (l : List Char)
    (h : ∀ c ∈ l, c ≠ '=') : l.dropWhile (fun c => c == '=') = l := by
  cases l with
  | nil => rfl
  | cons a t =>
      rw [List.dropWhile_cons]
      have ha : (a == '=') = false := by
        have := h a (by simp)
        simp [this]
      simp [ha]

lemma stripTrailingPad_chunk (xs : List Char) (k : Nat)
    (h : ∀ c ∈ xs, c ≠ '=') :
    stripTrailingPad (xs ++ List.replicate k '=') = xs := by
  unfold stripTrailingPad
  rw [List.reverse_append, List.reverse_replicate]
  have hdrop : ∀ m : Nat, (List.replicate m '=' ++ xs.reverse).dropWhile
      (fun c => c == '=') = xs.reverse.dropWhile (fun c => c == '=') := by
    intro m
    induction m with
    | zero => simp
    | succ m ih =>
        rw [List.replicate_succ, List.cons_append, List.dropWhile_cons]
        simp [ih]
  rw [hdrop, dropWhile_eq_of_forall_ne _ (by intro c hc; exact h c (by simpa using hc)),
      List.reverse_reverse]

lemma stripTrailingPad_append (xs ys : List Char)
    (h : stripTrailingPad ys ≠ []) :
    stripTrailingPad (xs ++ ys) = xs ++ stripTrailingPad ys := by
  unfold stripTrailingPad at *
  rw [List.reverse_append, List.dropWhile_append]
  have hne : (ys.reverse.dropWhile (fun c => c == '=')).isEmpty = false := by
    rcases hh : ys.reverse.dropWhile (fun c => c == '=') with _ | ⟨a, t⟩
    · exact absurd (by simp [hh]) h
    · simp
  rw [hne]
  simp

/-- The post-encoding length of `base64UrlEncode` is a function of the byte
count alone: `4 * (n / 3)` plus `0`, `2` or `3` for a final partial group. -/
theorem base64UrlEncode_length (bytes : List Nat) :
    (base64UrlEncode bytes).length = b64UrlLen bytes.length := by
  induction bytes using btoaEncode.induct with
  | case1 =>
      simp [base64UrlEncode, btoaEncode, stripTrailingPad_nil, b64UrlLen]
  | case2 b1 =>
      have : base64UrlEncode [b1] =
          [urlSafeChar (b64Char (b1 / 4)), urlSafeChar (b64Char (b1 % 4 * 16))] := by
        unfold base64UrlEncode btoaEncode
        have := stripTrailingPad_chunk
          [urlSafeChar (b64Char (b1 / 4)), urlSafeChar (b64Char (b1 % 4 * 16))] 2
          (by
            intro c hc
            simp at hc
            rcases hc with h | h <;> subst h <;> exact urlSafeChar_b64Char_ne_pad _)
        simpa [urlSafeChar, List.replicate] using this
      rw [this]
      simp [b64UrlLen]
  | case3 b1 b2 =>
      have : base64UrlEncode [b1, b2] =
          [urlSafeChar (b64Char (b1 / 4)), urlSafeChar (b64Char (b1 % 4 * 16 + b2 / 16)),
           urlSafeChar (b64Char (b2 % 16 * 4))] := by
        unfold base64UrlEncode btoaEncode
        have := stripTrailingPad_chunk
          [urlSafeChar (b64Char (b1 / 4)), urlSafeChar (b64Char (b1 % 4 * 16 + b2 / 16)),
           urlSafeChar (b64Char (b2 % 16 * 4))] 1
          (by
            intro c hc
            simp at hc
            rcases hc with h | h | h <;> subst h <;> exact urlSafeChar_b64Char_ne_pad _)
        simpa [urlSafeChar, List.replicate] using this
      rw [this]
      simp [b64UrlLen]
  | case4 b1 b2 b3 rest ih =>
      rcases hr : rest with _ | ⟨c, cs⟩
      · subst hr
        have : base64UrlEncode [b1, b2, b3] =
            [urlSafeChar (b64Char (b1 / 4)), urlSafeChar (b64Char (b1 % 4 * 16 + b2 / 16)),
             urlSafeChar (b64Char (b2 % 16 * 4 + b3 / 64)), urlSafeChar (b64Char (b3 % 64))] := by
          unfold base64UrlEncode btoaEncode
          have := stripTrailingPad_chunk
            [urlSafeChar (b64Char (b1 / 4)), urlSafeChar (b64Char (b1 % 4 * 16 + b2 / 16)),
             urlSafeChar (b64Char (b2 % 16 * 4 + b3 / 64)), urlSafeChar (b64Char (b3 % 64))] 0
            (by
              intro c hc
              simp at hc
              rcases hc with h | h | h | h <;> subst h <;> exact urlSafeChar_b64Char_ne_pad _)
          simpa [List.replicate] using this
        rw [this]
        simp [b64UrlLen]
      · subst hr
        have hpos : 0 < b64UrlLen (c :: cs).length := by
          unfold b64UrlLen
          have : 0 < (c :: cs).length := by simp
          split <;> omega
        have hne : base64UrlEncode (c :: cs) ≠ [] := by
          intro hnil
          have hlen0 : (base64UrlEncode (c :: cs)).length = 0 := by simp [hnil]
          rw [ih] at hlen0
          omega
        have hsplit : base64UrlEncode (b1 :: b2 :: b3 :: c :: cs) =
            [urlSafeChar (b64Char (b1 / 4)), urlSafeChar (b64Char (b1 % 4 * 16 + b2 / 16)),
             urlSafeChar (b64Char (b2 % 16 * 4 + b3 / 64)), urlSafeChar (b64Char (b3 % 64))] ++
            base64UrlEncode (c :: cs) := by
          have hmap : (btoaEncode (b1 :: b2 :: b3 :: c :: cs)).map urlSafeChar =
              [urlSafeChar (b64Char (b1 / 4)), urlSafeChar (b64Char (b1 % 4 * 16 + b2 / 16)),
               urlSafeChar (b64Char (b2 % 16 * 4 + b3 / 64)), urlSafeChar (b64Char (b3 % 64))] ++
              (btoaEncode (c :: cs)).map urlSafeChar := by
            rw [show btoaEncode (b1 :: b2 :: b3 :: c :: cs) =
                b64Char (b1 / 4) :: b64Char (b1 % 4 * 16 + b2 / 16) ::
                b64Char (b2 % 16 * 4 + b3 / 64) :: b64Char (b3 % 64) ::
                btoaEncode (c :: cs) from rfl]
            simp
          show stripTrailingPad ((btoaEncode (b1 :: b2 :: b3 :: c :: cs)).map urlSafeChar) = _
          rw [hmap]
          exact stripTrailingPad_append _ _ hne
        rw [hsplit, List.length_append, ih]
        unfold b64UrlLen
        have h3 : (b1 :: b2 :: b3 :: c :: cs).length = (c :: cs).length + 3 := by simp
        rw [h3]
        have hd : ((c :: cs).length + 3) / 3 = (c :: cs).length / 3 + 1 := by omega
        have hm : ((c :: cs).length + 3) % 3 = (c :: cs).length % 3 := by omega
        rw [hd, hm]
        split <;> simp <;> omega

/-! ## Claims model (src/types.ts, src/oidc/jwt.ts)

A decoded JWT payload is a JS object: an open key → value map.  `JsVal` is
the JSON value universe; `Claims` is the map viewed through property lookup,
which is what every use site (spread merge, `claims.sub`, optional chaining)
observes. -/

/-- A JSON / JS value as produced by `decodeJwt`. -/
inductive JsVal where
  | str (s : String)
  | num (n : Int)
  | boolVal (b : Bool)
  | arr (elems : List JsVal)
  | obj (fields : List (String × JsVal))
  | nullVal

/-- A decoded claims object (`Record<string, unknown>`), as a key lookup. -/
def Claims := String → Option JsVal

/-- JS object spread `{ ...a, ...b }`: keys of `b` override keys of `a`. -/
def jsSpread (a b : Claims) : Claims := fun k => (b k).or (a k)

/-- Optional-chained property access `v?.[key]`: a lookup on an object,
`undefined` on everything else. -/
def jsGet : Option JsVal → String → Option JsVal
  | some (JsVal.obj fields), key => fields.lookup key
  | _, _ => none

/-- The unchecked TS cast of a claim value to `string[]` (`roles` arrays):
string elements of an array value, `[]` otherwise. -/
def jsStrElems : Option JsVal → List String
  | some (JsVal.arr l) => l.filterMap fun x =>
      match x with
      | JsVal.str s => some s
      | _ => none
  | _ => []

/-- Deduplication via `[...new Set(xs)]`: keeps the first occurrence of each
element, in order. -/
def jsSetDedup (l : List String) : List String :=
  l.foldl (fun acc x => if x ∈ acc then acc else acc ++ [x]) []

/-- Embedding of the `KeycloakUser` shape (src/types.ts). The TS `as string`
casts on the display fields are unchecked at runtime, so those fields keep
the raw claim values. -/
structure KeycloakUser where
  sub : Option JsVal
  name : Option JsVal
  preferred_username : Option JsVal
  email : Option JsVal
  roles : List String
  realm_roles : List String
  client_roles : List String
  raw_claims : Claims

/-- Embedding of `extractUser(claims, clientId)` (src/oidc/jwt.ts lines
56-84): realm roles from `realm_access.roles`, client roles from
`resource_access[clientId].roles`, union deduplicated. -/
def extractUser (claims : Claims) (clientId : String) : KeycloakUser :=
  let realmRoles := jsStrElems (jsGet (claims "realm_access") "roles")
  let clientRoles := jsStrElems (jsGet (jsGet (claims "resource_access") clientId) "roles")
  let allRoles := jsSetDedup (realmRoles ++ clientRoles)
  { sub := claims "sub", name := claims "name",
    preferred_username := claims "preferred_username", email := claims "email",
    roles := allRoles, realm_roles := realmRoles, client_roles := clientRoles,
    raw_claims := claims }

/-- Embedding of the normalized `KeycloakTokens` record (src/types.ts). -/
structure KeycloakTokens where
  access_token : String
  refresh_token : String
  id_token : String
  token_type : String
  expires_in : Int
  refresh_expires_in : Int
  access_token_expires_at : Int
  refresh_token_expires_at : Int

/-- Embedding of `KeycloakSession` (src/types.ts): note `idToken` has type
`string` (total), never `null`. -/
structure KeycloakSession where
  user : KeycloakUser
  accessToken : String
  idToken : String
  accessTokenExpiresAt : Int
  refreshTokenExpiresAt : Int

/-- Embedding of the `KeycloakConfig` fields the session and callback logic
reads. -/
structure KeycloakConfig where
  url : String
  realm : String
  clientId : String
  clientSecret : Option String
  redirectUri : Option String
  authBasePath : Option String
  cookieName : Option String
  refreshMarginSeconds : Option Int

/-- Modelled from the spec: the record returned by `getTokenCookies`
(`session/cookies.ts`, which is not among the sources). Per spec §6 the store
is `get(key) -> value|absent` over the keys `{prefix}_at`, `{prefix}_rt`,
`{prefix}_id` (strings) and `{prefix}_exp`, `{prefix}_rexp` (epoch-second
timestamps), so each field is the value read or absent. -/
structure TokenCookies where
  accessToken : Option String
  refreshToken : Option String
  idToken : Option String
  expiresAt : Option Int
  refreshExpiresAt : Option Int

/-- Effects performed by one `getSession` call: whether
`refreshAccessToken` was invoked (a network call), what `setTokenCookies`
wrote (cookie prefix and tokens), and whether any stored credential was
deleted (`getSession` contains no delete call). -/
structure SessionTrace where
  refreshCalled : Bool
  written : Option (String × KeycloakTokens)
  deletedCredentials : Bool

/-- The empty effect trace: no network call, no write, no deletion. -/
def noSessionEffects : SessionTrace :=
  { refreshCalled := false, written := none, deletedCredentials := false }

/-- Merged claims computed by `buildSession` (src/session/session.ts lines
82-91): decode the id token when present (else the access token), decode the
access token separately when an id token is present, and spread
`{ ...claims, ...accessClaims, ...claims }`. -/
def mergedClaimsOf (decode : String → Claims) (accessToken : String)
    (idToken : Option String) : Claims :=
  let tokenToDecode := idToken.getD accessToken
  let claims := decode tokenToDecode
  let accessClaims := if strTruthy idToken then decode accessToken else claims
  jsSpread (jsSpread claims accessClaims) claims

/-- Embedding of `buildSession` (src/session/session.ts lines 75-102). The
JWT decoder is the explicit parameter `decode`; `??` is `Option.getD`. -/
def buildSession (decode : String → Claims) (accessToken : String)
    (idToken : Option String) (accessTokenExpiresAt refreshTokenExpiresAt : Option Int)
    (clientId : String) : KeycloakSession :=
  let mergedClaims := mergedClaimsOf decode accessToken idToken
  let user := extractUser mergedClaims clientId
  { user := user, accessToken := accessToken,
    idToken := idToken.getD accessToken,
    accessTokenExpiresAt := accessTokenExpiresAt.getD 0,
    refreshTokenExpiresAt := refreshTokenExpiresAt.getD 0 }

/-- Embedding of `getSession` (src/session/session.ts lines 17-70). The
clock (`now`, epoch seconds), the cookie read result, and the outcome of the
`refreshAccessToken` network call (`some tokens` = success, `none` = throw)
are explicit parameters; the returned trace records the effects. JS
truthiness governs every guard exactly as in the source. -/
def getSession (config : KeycloakConfig) (now : Int) (decode : String → Claims)
    (tokenCookies : TokenCookies) (refreshResult : Option KeycloakTokens) :
    Option KeycloakSession × SessionTrace :=
  let cookiePfx := config.cookieName.getD "kc"
  let refreshMargin := config.refreshMarginSeconds.getD 60
  if !strTruthy tokenCookies.accessToken && !strTruthy tokenCookies.refreshToken then
    (none, noSessionEffects)
  else if strTruthy tokenCookies.accessToken && numTruthy tokenCookies.expiresAt
      && !isTokenExpired now (tokenCookies.expiresAt.getD 0) refreshMargin then
    (some (buildSession decode (tokenCookies.accessToken.getD "") tokenCookies.idToken
       tokenCookies.expiresAt tokenCookies.refreshExpiresAt config.clientId),
     noSessionEffects)
  else if strTruthy tokenCookies.refreshToken then
    if numTruthy tokenCookies.refreshExpiresAt
        && isTokenExpired now (tokenCookies.refreshExpiresAt.getD 0) 0 then
      (none, noSessionEffects)
    else
      match refreshResult with
      | some newTokens =>
          (some (buildSession decode newTokens.access_token (some newTokens.id_token)
             (some newTokens.access_token_expires_at)
             (some newTokens.refresh_token_expires_at) config.clientId),
           { refreshCalled := true, written := some (cookiePfx, newTokens),
             deletedCredentials := false })
      | none =>
          (none, { refreshCalled := true, written := none, deletedCredentials := false })
  else
    (none, noSessionEffects)

/-! ## callback.ts — the callback route handler (src/handlers/callback.ts) -/

/-- The query parameters the callback handler reads from the request URL,
plus the request URL's origin. `none` models an absent parameter. -/
structure CallbackRequest where
  code : Option String
  state : Option String
  error : Option String
  errorDescription : Option String
  origin : String

/-- Modelled from the spec: the record returned by `getPKCECookies`
(`session/cookies.ts`, which is not among the sources). Per spec §6 the PKCE
exchange record consists of `{prefix}_cv` (code verifier), `{prefix}_state`
and `{prefix}_return`, each read as `value|absent`. -/
structure PKCECookies where
  codeVerifier : Option String
  state : Option String
  returnTo : Option String

/-- The `NextResponse` values the callback handler can build: a redirect to
the local error page carrying the provider error, a JSON error response with
an HTTP status, or a redirect to `returnTo` resolved against the origin. -/
inductive CallbackResponse where
  | errorRedirect (error : String) (description : Option String) (origin : String)
  | jsonError (status : Nat) (message : String)
  | redirectTo (returnTo : String) (origin : String)
deriving DecidableEq

/-- Effects performed by one callback invocation: the arguments of the
`exchangeCodeForTokens` call if one was made (code, code verifier, redirect
URI), what `setTokenCookies` wrote, and whether `clearPKCECookies` ran. -/
structure CallbackTrace where
  exchangeCalled : Option (String × String × String)
  tokensSaved : Option (String × KeycloakTokens)
  pkceCleared : Bool

/-- The empty callback effect trace. -/
def noCallbackEffects : CallbackTrace :=
  { exchangeCalled := none, tokensSaved := none, pkceCleared := false }

/-- Embedding of the handler returned by `createCallbackHandler`
(src/handlers/callback.ts lines 19-99). The PKCE cookie read and the token
exchange outcome (`some tokens` = success, `none` = throw) are parameters;
guards use JS truthiness exactly as the source does. -/
def callbackHandler (config : KeycloakConfig) (request : CallbackRequest)
    (pkceCookies : PKCECookies) (exchangeResult : Option KeycloakTokens) :
    CallbackResponse × CallbackTrace :=
  if strTruthy request.error then
    (CallbackResponse.errorRedirect (request.error.getD "") request.errorDescription
       request.origin, noCallbackEffects)
  else if !strTruthy request.code then
    (CallbackResponse.jsonError 400 "Missing authorization code", noCallbackEffects)
  else if !strTruthy request.state || !strTruthy pkceCookies.state
      || request.state != pkceCookies.state then
    (CallbackResponse.jsonError 403 "Invalid state parameter — possible CSRF attack",
     noCallbackEffects)
  else if !strTruthy pkceCookies.codeVerifier then
    (CallbackResponse.jsonError 400 "Missing PKCE code verifier — session may have expired",
     noCallbackEffects)
  else
    let authBasePath := config.authBasePath.getD "/api/auth"
    let redirectUri := config.redirectUri.getD
      (request.origin ++ authBasePath ++ "/callback")
    match exchangeResult with
    | some tokens =>
        (CallbackResponse.redirectTo (pkceCookies.returnTo.getD "/") request.origin,
         { exchangeCalled := some (request.code.getD "", pkceCookies.codeVerifier.getD "",
             redirectUri),
           tokensSaved := some (config.cookieName.getD "kc", tokens),
           pkceCleared := true })
    | none =>
        (CallbackResponse.jsonError 500 "Token exchange failed",
         { exchangeCalled := some (request.code.getD "", pkceCookies.codeVerifier.getD "",
             redirectUri),
           tokensSaved := none,
           pkceCleared := false })

/-! ## discovery.ts — endpoint discovery with cache (src/oidc/discovery.ts) -/

/-- Embedding of the `OIDCEndpoints` record built from the parsed well-known
document (src/oidc/discovery.ts lines 46-54). The TS declared types are
`string`, but the values come straight from untyped JSON, so each may be
absent at runtime; `none` models an absent field. -/
structure OIDCEndpoints where
  authorization_endpoint : Option String
  token_endpoint : Option String
  userinfo_endpoint : Option String
  end_session_endpoint : Option String
  jwks_uri : Option String
  introspection_endpoint : Option String
  issuer : Option String
deriving DecidableEq

/-- Outcome of the well-known `fetch`: `ok` is the 2xx flag, `config` holds
the relevant fields of the parsed JSON body. -/
structure DiscoveryResponse where
  ok : Bool
  status : Nat
  config : OIDCEndpoints

/-- One entry of the process-wide discovery cache. -/
structure DiscoveryCacheEntry where
  endpoints : OIDCEndpoints
  expiresAt : Int

/-- The process-wide discovery cache (a `Map` keyed by `url:realm`);
`Map.set` is modelled by shadowing cons, observed through `List.lookup`. -/
abbrev DiscoveryCache := List (String × DiscoveryCacheEntry)

/-- Embedding of `getRealmUrl` (src/oidc/discovery.ts lines 13-16). -/
def getRealmUrl (url realm : String) : String :=
  (if url.endsWith "/" then url.dropRight 1 else url) ++ "/realms/" ++ realm

/-- The required-field loop of `discoverEndpoints` (lines 57-71): the first
of `authorization_endpoint, token_endpoint, end_session_endpoint, jwks_uri,
issuer` that is falsy, if any. -/
def firstMissingField (e : OIDCEndpoints) : Option String :=
  if !strTruthy e.authorization_endpoint then some "authorization_endpoint"
  else if !strTruthy e.token_endpoint then some "token_endpoint"
  else if !strTruthy e.end_session_endpoint then some "end_session_endpoint"
  else if !strTruthy e.jwks_uri then some "jwks_uri"
  else if !strTruthy e.issuer then some "issuer"
  else none

/-- Discriminates the error case of a discovery result. -/
def discoveryIsError : Except String OIDCEndpoints → Bool
  | Except.error _ => true
  | Except.ok _ => false

/-- Cache consultation of `discoverEndpoints` (src/oidc/discovery.ts lines
27-31): a hit only when an entry exists and has not passed its TTL. -/
def discoveryCacheHit (nowMs : Int) (cache : DiscoveryCache) (cacheKey : String) :
    Option OIDCEndpoints :=
  match cache.lookup cacheKey with
  | some entry => if nowMs < entry.expiresAt then some entry.endpoints else none
  | none => none

/-- Embedding of `discoverEndpoints` (src/oidc/discovery.ts lines 22-79).
`nowMs` is `Date.now()`; the cache is passed and returned explicitly; the
fetch outcome is the `response` parameter. `CACHE_TTL_MS = 300000`. -/
def discoverEndpoints (nowMs : Int) (cache : DiscoveryCache) (url realm : String)
    (response : DiscoveryResponse) : Except String OIDCEndpoints × DiscoveryCache :=
  let cacheKey := url ++ ":" ++ realm
  match discoveryCacheHit nowMs cache cacheKey with
  | some endpoints => (Except.ok endpoints, cache)
  | none =>
    let wellKnownUrl := getRealmUrl url realm ++ "/.well-known/openid-configuration"
    if !response.ok then
      (Except.error ("Failed to discover OIDC endpoints from " ++ wellKnownUrl), cache)
    else
      let endpoints := response.config
      match firstMissingField endpoints with
      | some missing =>
          (Except.error ("Missing required OIDC endpoint '" ++ missing ++
             "' in discovery document from " ++ wellKnownUrl), cache)
      | none =>
          (Except.ok endpoints,
           (cacheKey, { endpoints := endpoints, expiresAt := nowMs + 300000 }) :: cache)

/-! ## Spec-side merge (spec §4.5, §9) -/

/-- The merge the spec describes for `buildSession`: id-token claims win on
every key collision, access-token claims fill the gaps — one deterministic
function of the two claim maps. -/
def claimMerge (idClaims accessClaims : Claims) : Claims :=
  fun k => (idClaims k).or (accessClaims k)

/-! ## Concrete fixtures used by counterexamples and witnesses -/

/-- A concrete provider configuration with every optional field defaulted. -/
def sampleConfig : KeycloakConfig :=
  { url := "https://idp.test", realm := "demo", clientId := "app",
    clientSecret := none, redirectUri := none, authBasePath := none,
    cookieName := none, refreshMarginSeconds := none }

/-- A degenerate JWT decoder producing an empty claims object. -/
def decodeNone : String → Claims := fun _ _ => none

/-- A concrete normalized token set as produced by a token exchange. -/
def sampleTokens : KeycloakTokens :=
  { access_token := "new-at", refresh_token := "new-rt", id_token := "new-id",
    token_type := "Bearer", expires_in := 300, refresh_expires_in := 1800,
    access_token_expires_at := 1300, refresh_token_expires_at := 1900 }

/-! ## Theorems -/

/-- C6: `isTokenExpired(expiresAt, margin)` returns true iff
`now ≥ expiresAt - margin` (epoch seconds), and at the boundary
`now = expiresAt - margin` it returns true. -/
theorem isTokenExpired_iff_now_ge_threshold (now expiresAt margin : Int) :
    (isTokenExpired now expiresAt margin = true ↔ now ≥ expiresAt - margin) ∧
    isTokenExpired (expiresAt - margin) expiresAt margin = true := by
  constructor
  · simp [isTokenExpired]
  · simp [isTokenExpired]

/-- C5 (code defect): `generateCodeVerifier` interprets its `length`
argument as a count of random bytes, not of output characters. With
`length = 128` — inside the claimed configurable range — the verifier has
171 characters, outside the RFC 7636 post-encoding range of 43–128, while
the default `length = 64` yields 86 characters, inside the range. By
`base64UrlEncode_length` the output length depends only on the byte count,
so the choice of zero bytes is irrelevant. -/
theorem generateCodeVerifier_length_bytes_not_chars :
    (generateCodeVerifier (List.replicate 128 0)).length = 171 ∧
    ¬ (generateCodeVerifier (List.replicate 128 0)).length ≤ 128 ∧
    (generateCodeVerifier (List.replicate 64 0)).length = 86 := by
  have h128 : (generateCodeVerifier (List.replicate 128 0)).length = 171 := by
    unfold generateCodeVerifier
    rw [base64UrlEncode_length, List.length_replicate]
    decide
  have h64 : (generateCodeVerifier (List.replicate 64 0)).length = 86 := by
    unfold generateCodeVerifier
    rw [base64UrlEncode_length, List.length_replicate]
    decide
  exact ⟨h128, by omega, h64⟩

/-- C1: a callback carrying no provider `error` and a (non-empty) `code` is
rejected with the 403 CSRF response, and the token exchange is never
invoked, whenever the incoming `state` is absent, the persisted state is
absent, or the two are not equal. -/
theorem callback_state_mismatch_rejected
    (config : KeycloakConfig) (request : CallbackRequest)
    (pkceCookies : PKCECookies) (exchangeResult : Option KeycloakTokens)
    (herr : request.error = none)
    (hcode : strTruthy request.code = true)
    (hbad : request.state = none ∨ pkceCookies.state = none ∨
      request.state ≠ pkceCookies.state) :
    (callbackHandler config request pkceCookies exchangeResult).1 =
      CallbackResponse.jsonError 403 "Invalid state parameter — possible CSRF attack" ∧
    (callbackHandler config request pkceCookies exchangeResult).2.exchangeCalled = none := by
  have hguard : (!strTruthy request.state || !strTruthy pkceCookies.state ||
      (request.state != pkceCookies.state)) = true := by
    rcases hbad with h | h | h
    · rw [h]
      simp [show strTruthy (none : Option String) = false from rfl]
    · rw [h]
      simp [show strTruthy (none : Option String) = false from rfl]
    · have hb : (request.state != pkceCookies.state) = true := bne_iff_ne.mpr h
      simp [hb]
  have hres : callbackHandler config request pkceCookies exchangeResult =
      (CallbackResponse.jsonError 403 "Invalid state parameter — possible CSRF attack",
       noCallbackEffects) := by
    unfold callbackHandler
    rw [herr]
    rw [if_neg (by decide : ¬(strTruthy (none : Option String) = true))]
    rw [hcode]
    rw [if_neg (by decide : ¬((!true) = true))]
    rw [hguard]
    rw [if_pos rfl]
  rw [hres]
  exact ⟨rfl, rfl⟩

/-- C1 witness: a concrete callback with a code, no provider error and no
incoming state is rejected with 403 and no exchange call. -/
theorem callback_state_mismatch_rejected_witness :
    (callbackHandler sampleConfig ⟨some "c", none, none, none, "https://app.test"⟩
       ⟨some "v", some "s", none⟩ none).1 =
      CallbackResponse.jsonError 403 "Invalid state parameter — possible CSRF attack" ∧
    (callbackHandler sampleConfig ⟨some "c", none, none, none, "https://app.test"⟩
       ⟨some "v", some "s", none⟩ none).2.exchangeCalled = none :=
  callback_state_mismatch_rejected sampleConfig _ _ none rfl (by decide) (Or.inl rfl)

/-- C4 counterexample: every check passes (no provider error, code present,
matching state, verifier present) and the exchange fails: the exchange was
invoked, yet `clearPKCECookies` did not run, so the PKCE record is not
deleted unconditionally — it is kept on the failure path. -/
theorem callback_pkce_not_cleared_on_failure :
    (callbackHandler sampleConfig ⟨some "c", some "s", none, none, "https://app.test"⟩
       ⟨some "v", some "s", some "/home"⟩ none).2.exchangeCalled ≠ none ∧
    (callbackHandler sampleConfig ⟨some "c", some "s", none, none, "https://app.test"⟩
       ⟨some "v", some "s", some "/home"⟩ none).2.pkceCleared = false := by
  constructor
  · decide
  · decide

/-- C4 amended: past all checks, the PKCE-exchange record is deleted exactly
when the code-for-tokens exchange succeeds: on success it is cleared and the
caller is redirected to the persisted `returnTo` (default `/`); on failure
the handler answers 500 and the record is left in place. -/
theorem callback_pkce_cleared_iff_success
    (config : KeycloakConfig) (request : CallbackRequest)
    (pkceCookies : PKCECookies) (exchangeResult : Option KeycloakTokens)
    (herr : strTruthy request.error = false)
    (hcode : strTruthy request.code = true)
    (hstate : (!strTruthy request.state || !strTruthy pkceCookies.state ||
      (request.state != pkceCookies.state)) = false)
    (hver : strTruthy pkceCookies.codeVerifier = true) :
    (callbackHandler config request pkceCookies exchangeResult).2.pkceCleared =
      exchangeResult.isSome ∧
    (exchangeResult = none →
      (callbackHandler config request pkceCookies exchangeResult).1 =
        CallbackResponse.jsonError 500 "Token exchange failed") ∧
    (∀ tokens, exchangeResult = some tokens →
      (callbackHandler config request pkceCookies exchangeResult).1 =
        CallbackResponse.redirectTo (pkceCookies.returnTo.getD "/") request.origin) := by
  rcases hex : exchangeResult with _ | t <;>
    simp [callbackHandler, herr, hcode, hstate, hver, hex]

/-- C4 witness: with all checks passing and a successful exchange the PKCE
record is cleared. -/
theorem callback_pkce_cleared_iff_success_witness :
    (callbackHandler sampleConfig ⟨some "c", some "s", none, none, "https://app.test"⟩
       ⟨some "v", some "s", some "/home"⟩ (some sampleTokens)).2.pkceCleared =
      (some sampleTokens).isSome :=
  (callback_pkce_cleared_iff_success sampleConfig _ _ (some sampleTokens)
    (by decide) (by decide) (by decide) (by decide)).1

/-- C2 counterexample: access token absent, refresh token present, stored
refresh expiry equal to 0 — a timestamp in the past, and `isExpired(0, 0)`
holds at `now = 100` — yet `getSession` performs the refresh network call:
the falsy value 0 skips the known-expired guard. -/
theorem getSession_zero_refresh_expiry_calls_network :
    isTokenExpired 100 0 0 = true ∧
    (getSession sampleConfig 100 decodeNone
       ⟨none, some "rt", none, none, some 0⟩ none).2.refreshCalled = true ∧
    (getSession sampleConfig 100 decodeNone
       ⟨none, some "rt", none, none, some 0⟩ none).1 = none := by
  refine ⟨by decide, by decide, rfl⟩

/-- C2 amended: with the stored refresh expiry present and nonzero (truthy),
an access token missing or expired (the access-valid guard fails), a refresh
token present, and the expiry in the past, `getSession` returns absent with
no network call, no store write and no deletion — whatever a refresh would
have returned. -/
theorem getSession_refresh_expired_no_network
    (config : KeycloakConfig) (now : Int) (decode : String → Claims)
    (tc : TokenCookies) (refreshResult : Option KeycloakTokens) (r : Int)
    (hnv : (strTruthy tc.accessToken && numTruthy tc.expiresAt &&
      !isTokenExpired now (tc.expiresAt.getD 0) (config.refreshMarginSeconds.getD 60)) = false)
    (hr : strTruthy tc.refreshToken = true)
    (hre : tc.refreshExpiresAt = some r) (hr0 : r ≠ 0)
    (hexp : isTokenExpired now r 0 = true) :
    getSession config now decode tc refreshResult = (none, noSessionEffects) := by
  have hnum : numTruthy tc.refreshExpiresAt = true := by simp [hre, numTruthy, hr0]
  have hget : tc.refreshExpiresAt.getD 0 = r := by simp [hre]
  simp [getSession, hr, hnv, hnum, hget, hexp]

/-- C2 witness: a concrete expired-refresh credential set resolves to
absent with the empty effect trace. -/
theorem getSession_refresh_expired_no_network_witness :
    getSession sampleConfig 100 decodeNone ⟨none, some "rt", none, none, some 5⟩ none =
      (none, noSessionEffects) :=
  getSession_refresh_expired_no_network sampleConfig 100 decodeNone _ none 5
    (by decide) (by decide) rfl (by decide) (by decide)

/-- C3: in the refresh branch (refresh token present, access-valid guard
false, known-expired guard false), a failing refresh exchange makes
`getSession` return absent; the trace records the refresh call but no store
write and no deletion. -/
theorem getSession_refresh_failure_no_write
    (config : KeycloakConfig) (now : Int) (decode : String → Claims)
    (tc : TokenCookies)
    (hr : strTruthy tc.refreshToken = true)
    (hnv : (strTruthy tc.accessToken && numTruthy tc.expiresAt &&
      !isTokenExpired now (tc.expiresAt.getD 0) (config.refreshMarginSeconds.getD 60)) = false)
    (hnk : (numTruthy tc.refreshExpiresAt &&
      isTokenExpired now (tc.refreshExpiresAt.getD 0) 0) = false) :
    getSession config now decode tc none =
      (none, { refreshCalled := true, written := none, deletedCredentials := false }) := by
  simp [getSession, hr, hnv, hnk]

/-- C3 witness: a concrete credential set with only a refresh token and a
failing refresh resolves to absent with no write. -/
theorem getSession_refresh_failure_no_write_witness :
    getSession sampleConfig 100 decodeNone ⟨none, some "rt", none, none, none⟩ none =
      (none, { refreshCalled := true, written := none, deletedCredentials := false }) :=
  getSession_refresh_failure_no_write sampleConfig 100 decodeNone _
    (by decide) (by decide) (by decide)

/-- C9: in the access-valid branch with no stored id token, the session
returned is `buildSession` of the stored access token with `idToken = none`,
whose `idToken` field equals its `accessToken` field; by construction
(`KeycloakSession.idToken : String`, assigned `idToken ?? accessToken`) the
field is never null or absent. -/
theorem getSession_missing_id_uses_access
    (config : KeycloakConfig) (now : Int) (decode : String → Claims)
    (tc : TokenCookies) (refreshResult : Option KeycloakTokens)
    (hv : (strTruthy tc.accessToken && numTruthy tc.expiresAt &&
      !isTokenExpired now (tc.expiresAt.getD 0) (config.refreshMarginSeconds.getD 60)) = true)
    (hid : tc.idToken = none) :
    (getSession config now decode tc refreshResult).1 =
      some (buildSession decode (tc.accessToken.getD "") none tc.expiresAt
        tc.refreshExpiresAt config.clientId) ∧
    (buildSession decode (tc.accessToken.getD "") none tc.expiresAt
       tc.refreshExpiresAt config.clientId).idToken =
    (buildSession decode (tc.accessToken.getD "") none tc.expiresAt
       tc.refreshExpiresAt config.clientId).accessToken := by
  have ha : strTruthy tc.accessToken = true := by
    have h := hv
    rw [Bool.and_eq_true, Bool.and_eq_true] at h
    exact h.1.1
  have hfirst : (!strTruthy tc.accessToken && !strTruthy tc.refreshToken) = false := by
    rw [ha]; rfl
  have hres : getSession config now decode tc refreshResult =
      (some (buildSession decode (tc.accessToken.getD "") tc.idToken tc.expiresAt
         tc.refreshExpiresAt config.clientId), noSessionEffects) := by
    simp only [getSession]
    rw [hfirst, if_neg (by decide : ¬(false = true)), hv, if_pos rfl]
  constructor
  · rw [hres, hid]
  · simp [buildSession]

/-- C9 witness: a concrete valid access token with no id token yields a
session whose idToken equals the access token. -/
theorem getSession_missing_id_uses_access_witness :
    (getSession sampleConfig 0 decodeNone
       ⟨some "at", none, none, some 1000, none⟩ none).1 =
      some (buildSession decodeNone "at" none (some 1000) none "app") ∧
    (buildSession decodeNone "at" none (some 1000) none "app").idToken =
    (buildSession decodeNone "at" none (some 1000) none "app").accessToken :=
  getSession_missing_id_uses_access sampleConfig 0 decodeNone
    ⟨some "at", none, none, some 1000, none⟩ none (by decide) rfl

/-- C10 counterexample: access token present, stored access expiry absent,
refresh token present but its stored expiry (1) already past at
`now = 1000`: the resolver returns absent WITHOUT attempting a refresh,
although a refresh token is present. -/
theorem getSession_absent_expiry_no_refresh_attempt :
    (getSession sampleConfig 1000 decodeNone
       ⟨some "at", some "rt", none, none, some 1⟩ none).2.refreshCalled = false ∧
    (getSession sampleConfig 1000 decodeNone
       ⟨some "at", some "rt", none, none, some 1⟩ none).1 = none ∧
    strTruthy (some "rt") = true := by
  exact ⟨by decide, rfl, by decide⟩

/-- C10 amended: with the access token present and its stored expiry absent
the access-valid branch is never taken — a session is only returned after a
refresh exchange — and the resolver behaves exactly as on an expired access
token: without a refresh token it returns absent; with a refresh token that
is not known-expired it attempts the refresh. -/
theorem getSession_absent_expiry_skips_valid_branch
    (config : KeycloakConfig) (now : Int) (decode : String → Claims)
    (tc : TokenCookies) (refreshResult : Option KeycloakTokens)
    (ha : strTruthy tc.accessToken = true)
    (he : tc.expiresAt = none) :
    ((getSession config now decode tc refreshResult).1.isSome = true →
      (getSession config now decode tc refreshResult).2.refreshCalled = true) ∧
    (strTruthy tc.refreshToken = false →
      getSession config now decode tc refreshResult = (none, noSessionEffects)) ∧
    (strTruthy tc.refreshToken = true →
      (numTruthy tc.refreshExpiresAt &&
        isTokenExpired now (tc.refreshExpiresAt.getD 0) 0) = false →
      (getSession config now decode tc refreshResult).2.refreshCalled = true) := by
  have hfirst : (!strTruthy tc.accessToken && !strTruthy tc.refreshToken) = false := by
    rw [ha]; rfl
  have hg2 : (strTruthy tc.accessToken && numTruthy tc.expiresAt &&
      !isTokenExpired now (tc.expiresAt.getD 0) (config.refreshMarginSeconds.getD 60)) = false := by
    rw [he]
    simp [numTruthy]
  refine ⟨?_, ?_, ?_⟩
  · intro hs
    cases hr : strTruthy tc.refreshToken with
    | false =>
      exfalso
      have hres : getSession config now decode tc refreshResult = (none, noSessionEffects) := by
        simp only [getSession]
        rw [hfirst, if_neg (by decide : ¬(false = true)), hg2,
           if_neg (by decide : ¬(false = true)), hr, if_neg (by decide : ¬(false = true))]
      rw [hres] at hs
      exact absurd hs (by decide)
    | true =>
      cases hk : (numTruthy tc.refreshExpiresAt &&
          isTokenExpired now (tc.refreshExpiresAt.getD 0) 0) with
      | true =>
        exfalso
        have hres : getSession config now decode tc refreshResult = (none, noSessionEffects) := by
          simp only [getSession]
          rw [hfirst, if_neg (by decide : ¬(false = true)), hg2,
             if_neg (by decide : ¬(false = true)), hr, if_pos rfl, hk, if_pos rfl]
        rw [hres] at hs
        exact absurd hs (by decide)
      | false =>
        cases hrr : refreshResult with
        | none =>
          simp only [getSession]
          rw [hfirst, if_neg (by decide : ¬(false = true)), hg2,
             if_neg (by decide : ¬(false = true)), hr, if_pos rfl, hk,
             if_neg (by decide : ¬(false = true))]
        | some t =>
          simp only [getSession]
          rw [hfirst, if_neg (by decide : ¬(false = true)), hg2,
             if_neg (by decide : ¬(false = true)), hr, if_pos rfl, hk,
             if_neg (by decide : ¬(false = true))]
  · intro hr
    simp only [getSession]
    rw [hfirst, if_neg (by decide : ¬(false = true)), hg2,
       if_neg (by decide : ¬(false = true)), hr, if_neg (by decide : ¬(false = true))]
  · intro hr hk
    cases hrr : refreshResult with
    | none =>
      simp only [getSession]
      rw [hfirst, if_neg (by decide : ¬(false = true)), hg2,
         if_neg (by decide : ¬(false = true)), hr, if_pos rfl, hk,
         if_neg (by decide : ¬(false = true))]
    | some t =>
      simp only [getSession]
      rw [hfirst, if_neg (by decide : ¬(false = true)), hg2,
         if_neg (by decide : ¬(false = true)), hr, if_pos rfl, hk,
         if_neg (by decide : ¬(false = true))]

/-- C10 witness: at a concrete store with access token present, expiry
absent, and a live refresh token, the refresh exchange is attempted. -/
theorem getSession_absent_expiry_skips_valid_branch_witness :
    (getSession sampleConfig 7 decodeNone
       ⟨some "at", some "rt", none, none, none⟩ none).2.refreshCalled = true :=
  (getSession_absent_expiry_skips_valid_branch sampleConfig 7 decodeNone
    ⟨some "at", some "rt", none, none, none⟩ none (by decide) rfl).2.2
    (by decide) (by decide)

/-- C7: when an id token is present, the merged claim map `buildSession`
uses equals the single deterministic merge of the two decoded claim maps in
which the id-token claims win every key collision and the access-token
claims fill the keys the id token omits. -/
theorem mergedClaims_id_token_precedence (decode : String → Claims)
    (accessToken idToken : String) (hid : idToken ≠ "") :
    mergedClaimsOf decode accessToken (some idToken) =
      claimMerge (decode idToken) (decode accessToken) := by
  funext k
  have ht : strTruthy (some idToken) = true := by simp [strTruthy, hid]
  simp only [mergedClaimsOf, claimMerge, jsSpread, Option.getD_some, ht, if_true]
  cases decode idToken k <;> cases decode accessToken k <;> simp [Option.or]

/-- C7 witness: the merge equation at a concrete decoder and token pair. -/
theorem mergedClaims_id_token_precedence_witness :
    mergedClaimsOf decodeNone "at" (some "it") =
      claimMerge (decodeNone "it") (decodeNone "at") :=
  mergedClaims_id_token_precedence decodeNone "at" "it" (by decide)

/-- Helper: if any required discovery field is absent, the required-field
loop reports some missing field. -/
lemma firstMissingField_isSome_of_absent (e : OIDCEndpoints)
    (h : e.authorization_endpoint = none ∨ e.token_endpoint = none ∨
      e.end_session_endpoint = none ∨ e.jwks_uri = none ∨ e.issuer = none) :
    ∃ f, firstMissingField e = some f := by
  unfold firstMissingField
  split_ifs with h1 h2 h3 h4 h5
  · exact ⟨_, rfl⟩
  · exact ⟨_, rfl⟩
  · exact ⟨_, rfl⟩
  · exact ⟨_, rfl⟩
  · exact ⟨_, rfl⟩
  · exfalso
    rcases h with h | h | h | h | h
    · exact h1 (by simp [h, strTruthy])
    · exact h2 (by simp [h, strTruthy])
    · exact h3 (by simp [h, strTruthy])
    · exact h4 (by simp [h, strTruthy])
    · exact h5 (by simp [h, strTruthy])

/-- C8: whenever the well-known fetch actually happens (no live cache hit)
and the response is not 2xx or a required field is absent from the parsed
document, `discoverEndpoints` returns an error and the returned cache is
exactly the one passed in — no partial document is stored. -/
theorem discoverEndpoints_failure_cache_unchanged
    (nowMs : Int) (cache : DiscoveryCache) (url realm : String)
    (response : DiscoveryResponse)
    (hmiss : ∀ e, cache.lookup (url ++ ":" ++ realm) = some e → ¬ nowMs < e.expiresAt)
    (hfail : response.ok = false ∨ response.config.authorization_endpoint = none ∨
      response.config.token_endpoint = none ∨
      response.config.end_session_endpoint = none ∨
      response.config.jwks_uri = none ∨ response.config.issuer = none) :
    discoveryIsError (discoverEndpoints nowMs cache url realm response).1 = true ∧
    (discoverEndpoints nowMs cache url realm response).2 = cache := by
  have hhit : discoveryCacheHit nowMs cache (url ++ ":" ++ realm) = none := by
    unfold discoveryCacheHit
    rcases hq : cache.lookup (url ++ ":" ++ realm) with _ | e
    · rfl
    · simp [hmiss e hq]
  cases hok : response.ok with
  | false =>
    constructor <;> simp [discoverEndpoints, hhit, hok, discoveryIsError]
  | true =>
    have hflds : response.config.authorization_endpoint = none ∨
        response.config.token_endpoint = none ∨
        response.config.end_session_endpoint = none ∨
        response.config.jwks_uri = none ∨ response.config.issuer = none := by
      rcases hfail with h | h
      · rw [hok] at h
        exact absurd h (by simp)
      · exact h
    rcases firstMissingField_isSome_of_absent response.config hflds with ⟨f, hf⟩
    constructor <;> simp [discoverEndpoints, hhit, hok, hf, discoveryIsError]

/-- C8 witness: a non-2xx discovery response with an empty cache yields an
error and the cache stays empty. -/
theorem discoverEndpoints_failure_cache_unchanged_witness :
    discoveryIsError (discoverEndpoints 0 [] "https://idp.test" "demo"
      ⟨false, 500, ⟨none, none, none, none, none, none, none⟩⟩).1 = true ∧
    (discoverEndpoints 0 [] "https://idp.test" "demo"
      ⟨false, 500, ⟨none, none, none, none, none, none, none⟩⟩).2 = [] :=
  discoverEndpoints_failure_cache_unchanged 0 [] "https://idp.test" "demo"
    ⟨false, 500, ⟨none, none, none, none, none, none, none⟩⟩
    (by intro e he; simp at he) (Or.inl rfl)

end KeycloakLib
